import Mathlib

/-!
Verification of the streaming exchange coordinator of the vivarium chat-ui
(the `handleSend` callback of the conversation component, together with the
send guard of the message-input component).

The embedding works on `List Char` throughout, with small structural string
helpers mirroring the JavaScript semantics (`split`, `trim`, `slice`,
`startsWith`), a fuel-based model of `JSON.parse`, and an explicit outcome
type for the network environment (non-2xx response, abort before the first
read, abort mid-stream, reconciliation failure, full success).
-/

namespace Vivarium

/-- JSON values as `JSON.parse` produces them. Number literals are kept as
their source text: the coordinator never inspects numeric values. -/
inductive Json where
  | null
  | bool (b : Bool)
  | num (lit : String)
  | str (s : String)
  | arr (elems : List Json)
  | obj (fields : List (String × Json))

/-- The opening brace character, `0x7b`. -/
def lbraceC : Char := Char.ofNat 0x7b

/-- The closing brace character, `0x7d`. -/
def rbraceC : Char := Char.ofNat 0x7d

/-- Whitespace as both JSON and JavaScript `trim` treat it (the subset that
occurs in the streamed frames). -/
def jsWs (c : Char) : Bool :=
  c = ' ' || c = '\t' || c = '\n' || c = '\r'

/-- Drop leading whitespace. -/
def skipWs : List Char → List Char
  | [] => []
  | c :: rest => if jsWs c then skipWs rest else c :: rest

/-- JavaScript `String.prototype.trim`. -/
def trimL (cs : List Char) : List Char :=
  ((cs.dropWhile jsWs).reverse.dropWhile jsWs).reverse

/-- `trim` on `String`, via `trimL`. -/
def jsTrim (s : String) : String := String.mk (trimL s.data)

/-- Whether the first list is a prefix of the second (JS `startsWith`). -/
def isPrefixL : List Char → List Char → Bool
  | [], _ => true
  | _ :: _, [] => false
  | p :: ps, c :: cs => p = c && isPrefixL ps cs

/-- JavaScript `split("\n")`: every newline separates, empty pieces kept. -/
def splitLines : List Char → List (List Char)
  | [] => [[]]
  | c :: rest =>
    if c = '\n' then [] :: splitLines rest
    else
      match splitLines rest with
      | l :: ls => (c :: l) :: ls
      | [] => [[c]]

/-- Value of a hex digit, if the character is one. -/
def hexVal (c : Char) : Option Nat :=
  if '0' ≤ c ∧ c ≤ '9' then some (c.toNat - 48)
  else if 'a' ≤ c ∧ c ≤ 'f' then some (c.toNat - 87)
  else if 'A' ≤ c ∧ c ≤ 'F' then some (c.toNat - 55)
  else none

/-- Body of a JSON string, after the opening quote: the decoded characters
and the input after the closing quote. Fails on a raw control character, a
bad escape or a missing closing quote, as `JSON.parse` does. -/
def parseStringBody : Nat → List Char → Option (List Char × List Char)
  | 0, _ => none
  | _ + 1, [] => none
  | fuel + 1, c :: rest =>
    if c = '"' then some ([], rest)
    else if c = '\\' then
      match rest with
      | [] => none
      | e :: rest2 =>
        let cont (ch : Char) (rs : List Char) : Option (List Char × List Char) :=
          match parseStringBody fuel rs with
          | some (s, r) => some (ch :: s, r)
          | none => none
        if e = '"' then cont '"' rest2
        else if e = '\\' then cont '\\' rest2
        else if e = '/' then cont '/' rest2
        else if e = 'b' then cont (Char.ofNat 8) rest2
        else if e = 'f' then cont (Char.ofNat 12) rest2
        else if e = 'n' then cont '\n' rest2
        else if e = 'r' then cont '\r' rest2
        else if e = 't' then cont '\t' rest2
        else if e = 'u' then
          match rest2 with
          | h1 :: h2 :: h3 :: h4 :: rest3 =>
            match hexVal h1, hexVal h2, hexVal h3, hexVal h4 with
            | some a, some b, some c2, some d =>
              cont (Char.ofNat (((a * 16 + b) * 16 + c2) * 16 + d)) rest3
            | _, _, _, _ => none
          | _ => none
        else none
    else if c.toNat < 32 then none
    else
      match parseStringBody fuel rest with
      | some (s, r) => some (c :: s, r)
      | none => none

/-- Leading decimal digits of the input, and the rest. -/
def digitsL : List Char → List Char × List Char
  | [] => ([], [])
  | c :: rest =>
    if c.isDigit then
      match digitsL rest with
      | (d, r) => (c :: d, r)
    else ([], c :: rest)

/-- Optional fraction part of a JSON number. -/
def parseFrac (cs : List Char) : Option (List Char × List Char) :=
  match cs with
  | '.' :: rest =>
    match rest with
    | c :: _ =>
      if c.isDigit then
        match digitsL rest with
        | (ds, r) => some ('.' :: ds, r)
      else none
    | [] => none
  | _ => some ([], cs)

/-- Optional exponent part of a JSON number. -/
def parseExp (cs : List Char) : Option (List Char × List Char) :=
  match cs with
  | c :: rest =>
    if c = 'e' ∨ c = 'E' then
      let sgnRest : List Char × List Char :=
        match rest with
        | s :: r2 => if s = '+' ∨ s = '-' then ([s], r2) else ([], rest)
        | [] => ([], rest)
      match sgnRest.2 with
      | d :: _ =>
        if d.isDigit then
          match digitsL sgnRest.2 with
          | (ds, r) => some (c :: sgnRest.1 ++ ds, r)
        else none
      | [] => none
    else some ([], cs)
  | [] => some ([], [])

/-- A JSON number: optional sign, integer part with no leading zero,
optional fraction and exponent. Returns the lexeme and the rest. -/
def parseNumber (cs : List Char) : Option (List Char × List Char) :=
  let signBody : List Char × List Char :=
    match cs with
    | '-' :: r => (['-'], r)
    | _ => ([], cs)
  match signBody.2 with
  | [] => none
  | c :: rest =>
    let intPart : Option (List Char × List Char) :=
      if c = '0' then some (['0'], rest)
      else if c.isDigit then
        match digitsL rest with
        | (ds, r) => some (c :: ds, r)
      else none
    match intPart with
    | none => none
    | some (ip, r1) =>
      match parseFrac r1 with
      | none => none
      | some (fp, r2) =>
        match parseExp r2 with
        | none => none
        | some (ep, r3) => some (signBody.1 ++ ip ++ fp ++ ep, r3)

/-- A literal keyword such as `true`: the rest of the input past it. -/
def parseLit : List Char → List Char → Option (List Char)
  | [], cs => some cs
  | l :: ls, c :: cs => if c = l then parseLit ls cs else none
  | _ :: _, [] => none

/-- One `"key": value` member of an object, given a parser for the value. -/
def parseMember (pv : List Char → Option (Json × List Char)) (cs : List Char) :
    Option ((String × Json) × List Char) :=
  match skipWs cs with
  | '"' :: rest =>
    match parseStringBody (rest.length + 1) rest with
    | some (key, r1) =>
      match skipWs r1 with
      | ':' :: r2 =>
        match pv r2 with
        | some (v, r3) => some ((String.mk key, v), r3)
        | none => none
      | _ => none
    | none => none
  | _ => none

/-- The members of a non-empty object, after the opening brace, with a
fuel bound on the number of members. -/
def parseObjBody (pv : List Char → Option (Json × List Char)) :
    Nat → List Char → List (String × Json) → Option (Json × List Char)
  | 0, _, _ => none
  | fuel + 1, cs, acc =>
    match parseMember pv cs with
    | none => none
    | some (kv, r) =>
      match skipWs r with
      | c :: r2 =>
        if c = ',' then parseObjBody pv fuel r2 (acc ++ [kv])
        else if c = rbraceC then some (.obj (acc ++ [kv]), r2)
        else none
      | [] => none

/-- The elements of a non-empty array, after the opening bracket. -/
def parseArrBody (pv : List Char → Option (Json × List Char)) :
    Nat → List Char → List Json → Option (Json × List Char)
  | 0, _, _ => none
  | fuel + 1, cs, acc =>
    match pv cs with
    | none => none
    | some (v, r) =>
      match skipWs r with
      | c :: r2 =>
        if c = ',' then parseArrBody pv fuel r2 (acc ++ [v])
        else if c = ']' then some (.arr (acc ++ [v]), r2)
        else none
      | [] => none

/-- One JSON value from the front of the input, by recursion on fuel. -/
def parseValue : Nat → List Char → Option (Json × List Char)
  | 0, _ => none
  | fuel + 1, cs =>
    match skipWs cs with
    | [] => none
    | c :: rest =>
      if c = '"' then
        match parseStringBody (rest.length + 1) rest with
        | some (s, r) => some (.str (String.mk s), r)
        | none => none
      else if c = lbraceC then
        match skipWs rest with
        | d :: r2 =>
          if d = rbraceC then some (.obj [], r2)
          else parseObjBody (fun cs2 => parseValue fuel cs2) (rest.length + 1) rest []
        | [] => none
      else if c = '[' then
        match skipWs rest with
        | d :: r2 =>
          if d = ']' then some (.arr [], r2)
          else parseArrBody (fun cs2 => parseValue fuel cs2) (rest.length + 1) rest []
        | [] => none
      else
        match parseLit "true".data (c :: rest) with
        | some r => some (.bool true, r)
        | none =>
          match parseLit "false".data (c :: rest) with
          | some r => some (.bool false, r)
          | none =>
            match parseLit "null".data (c :: rest) with
            | some r => some (.null, r)
            | none =>
              match parseNumber (c :: rest) with
              | some (lit, r) => some (.num (String.mk lit), r)
              | none => none

/-- `JSON.parse` on a whole input: one value, then only whitespace. -/
def parseJson (cs : List Char) : Option Json :=
  match parseValue (cs.length + 1) cs with
  | some (v, rest) => if (skipWs rest).isEmpty then some v else none
  | none => none

/-- Last-occurrence lookup of a key in an object's field list (duplicate
keys in a JSON text resolve to the last, as in JavaScript). -/
def lookupField : List (String × Json) → String → Option Json
  | [], _ => none
  | (k, v) :: rest, key =>
    match lookupField rest key with
    | some r => some r
    | none => if k = key then some v else none

/-- Member access `v.k` on a parsed value: a field of an object, undefined
(`none`) on any other value. Access on `null` throws in JavaScript; the
call sites below model that case explicitly. -/
def memberOf : Json → String → Option Json
  | .obj fields, k => lookupField fields k
  | _, _ => none

/-- One content block of a message, `type: "text"` with the text and an
optional format tag, as the conversation component builds them. -/
structure ContentBlock where
  type : String
  text : String
  format : Option String

/-- A message of the in-memory store. `id` is an `Option Json` because the
`message_start` handler assigns `event.message.id` to it, which can be any
parsed value or undefined; client-assigned ids are `some (.str uuid)`.
The `timestamp`, `cache` and `images` fields of the source are opaque to
every property verified here and are omitted. -/
structure Message where
  id : Option Json
  role : String
  content : List ContentBlock
  usage : Option Json

/-- JavaScript strict equality between a message id and a plain string id. -/
def idEq : Option Json → String → Bool
  | some (.str s), t => s == t
  | _, _ => false

/-- JavaScript strict equality between two id values as they occur here
(strings or undefined; ids are never other object values in this code). -/
def idEqId : Option Json → Option Json → Bool
  | some (.str a), some (.str b) => a == b
  | none, none => true
  | _, _ => false

/-- Replace the last element of the list, if any (the source mutates
`newMessages[newMessages.length - 1]` in place). -/
def updateLast (f : Message → Message) : List Message → List Message
  | [] => []
  | [m] => [f m]
  | m :: rest => m :: updateLast f rest

/-- The streaming loop's state: the message list and the `responseText`
accumulator. -/
structure StreamState where
  messages : List Message
  responseText : String

/-- The `message_start` case of the event switch: for a user-role event with
a user message present only an anomaly is logged; otherwise the last message,
when it is the assistant one, gets the event message's `id` and `usage`.
Accessing `.role` on an undefined or null `event.message` throws, is caught
by the loop's handler and leaves the state unchanged. -/
def message_start_step (userPresent : Bool) (st : StreamState) (ev : Json) : StreamState :=
  match memberOf ev "message" with
  | none => st
  | some .null => st
  | some msg =>
    let assign : StreamState :=
      { st with
        messages := updateLast (fun m =>
          if m.role == "assistant" then
            { m with id := memberOf msg "id", usage := memberOf msg "usage" }
          else m) st.messages }
    match memberOf msg "role" with
    | some (.str s) => if s == "user" && userPresent then st else assign
    | _ => assign

/-- The guarded text of a `content_block_delta` event: the delta's text when
`event.delta?.type === "text_delta"` and the text is a string, else none. -/
def deltaTextOfEvent (ev : Json) : Option String :=
  match memberOf ev "delta" with
  | some dv =>
    match memberOf dv "type" with
    | some (.str s) =>
      if s == "text_delta" then
        match memberOf dv "text" with
        | some (.str t) => some t
        | _ => none
      else none
    | _ => none
  | none => none

/-- Apply one text delta: extend `responseText` and replace the content of
the last message, when it is the assistant one, wholesale with a single
text block holding the full accumulated string. -/
def applyTextDelta (st : StreamState) (t : String) : StreamState :=
  let responseText := st.responseText ++ t
  { messages :=
      updateLast (fun m =>
        if m.role == "assistant" then
          { m with content := [⟨"text", responseText, some "markdown"⟩] }
        else m) st.messages,
    responseText := responseText }

/-- The `content_block_delta` case of the event switch. -/
def content_block_delta_step (st : StreamState) (ev : Json) : StreamState :=
  match deltaTextOfEvent ev with
  | some t => applyTextDelta st t
  | none => st

/-- The discriminant of a parsed event, when it is a string. -/
def eventType (ev : Json) : Option String :=
  match memberOf ev "type" with
  | some (.str s) => some s
  | _ => none

/-- Dispatch one parsed event by its `type`; unknown types are no-ops. -/
def processEvent (userPresent : Bool) (st : StreamState) (ev : Json) : StreamState :=
  match eventType ev with
  | some s =>
    if s == "message_start" then message_start_step userPresent st ev
    else if s == "content_block_delta" then content_block_delta_step st ev
    else st
  | none => st

/-- Handle the payload of one `data: ` line that is not `[DONE]`: skip it
unless it looks like a JSON object, skip it when `JSON.parse` fails, else
dispatch the event. Any throw inside this block is caught by the loop and
leaves the state unchanged, which the skip cases model. -/
def processData (userPresent : Bool) (st : StreamState) (data : List Char) : StreamState :=
  if isPrefixL [lbraceC] (trimL data) then
    match parseJson data with
    | some ev => processEvent userPresent st ev
    | none => st
  else st

/-- The per-chunk line loop: lines without the `data: ` marker are skipped,
a `[DONE]` payload breaks out of the loop (the rest of this chunk's lines
are not processed), any other payload goes through `processData`. -/
def processLines (userPresent : Bool) (st : StreamState) : List (List Char) → StreamState
  | [] => st
  | line :: rest =>
    if isPrefixL "data: ".data line then
      let data := line.drop 6
      if data = "[DONE]".data then st
      else processLines userPresent (processData userPresent st data) rest
    else processLines userPresent st rest

/-- One chunk of the response body: decoded, split on newlines with no
carry-over of a trailing partial line, then fed through the line loop. -/
def processChunk (userPresent : Bool) (st : StreamState) (chunk : String) : StreamState :=
  processLines userPresent st (splitLines chunk.data)

/-- The read loop over the whole sequence of chunks. A `[DONE]` payload only
breaks the line loop of its own chunk; reading continues with later chunks. -/
def processStream (userPresent : Bool) (st : StreamState) (chunks : List String) : StreamState :=
  chunks.foldl (processChunk userPresent) st

/-- Modelled from the spec: the carryover frame decoder that section 4.2
mandates and flags as missing from the reference behaviour. The trailing
partial line of each chunk is held in a buffer and prefixed to the next
chunk before splitting on newlines again. -/
def processChunkCarry (userPresent : Bool) (p : StreamState × List Char) (chunk : String) :
    StreamState × List Char :=
  let parts := splitLines (p.2 ++ chunk.data)
  (processLines userPresent p.1 parts.dropLast, parts.getLastD [])

/-- Modelled from the spec: the read loop over the carryover decoder. -/
def processStreamCarry (userPresent : Bool) (st : StreamState) (chunks : List String) :
    StreamState × List Char :=
  chunks.foldl (processChunkCarry userPresent) (st, [])

/-- The coordinator's visible state for one open conversation: the message
store, the conversation's `message_count`, the error banner and the
`loading` flag. -/
structure UIState where
  messages : List Message
  message_count : Int
  error : Option String
  loading : Bool

/-- How the network environment behaves for one send: the request itself
rejects with an abort error before the first read, the response is non-2xx,
the body yields some chunks and then a read throws an abort error, the body
completes but the reconciliation fetch fails, or everything succeeds and the
reconciliation fetch returns a message list. -/
inductive Outcome where
  | abortBeforeFirstRead
  | nonOk
  | abortMidStream (chunks : List String)
  | okReconcileFail (chunks : List String)
  | ok (chunks : List String) (fetched : List Message)

/-- The error banner text of the generic send failure handler. -/
def sendFailError : String := "Failed to send message. Please try again."

/-- Whether a user message object is created for this send: exactly when the
trimmed text is non-empty. -/
def hasUserMessage (messageText : String) : Bool :=
  !(jsTrim messageText == "")

/-- The optimistically appended user message: role `user`, a single text
block holding the untrimmed text. -/
def mkUserMessage (messageText uid : String) : Message :=
  { id := some (.str uid), role := "user",
    content := [⟨"text", messageText, none⟩], usage := none }

/-- The assistant placeholder: role `assistant`, one empty markdown text
block. -/
def mkAssistantPlaceholder (aid : String) : Message :=
  { id := some (.str aid), role := "assistant",
    content := [⟨"text", "", some "markdown"⟩], usage := none }

/-- The optimistic update of the message store: the user message when the
trimmed text is non-empty, then always the assistant placeholder. -/
def optimisticMessages (prev : List Message) (messageText uid aid : String) : List Message :=
  (if hasUserMessage messageText then prev ++ [mkUserMessage messageText uid] else prev)
    ++ [mkAssistantPlaceholder aid]

/-- `messageCountDelta` of the source: one for the user message when one is
appended, plus one for the assistant placeholder. -/
def messageCountDelta (messageText : String) : Int :=
  (if hasUserMessage messageText then 1 else 0) + 1

/-- The rollback callback of the non-2xx branch: drop the assistant message
with the assistant id, drop the user message with the user id when a user
message object was created, keep everything else. -/
def rollbackFilter (userAdded : Bool) (uid aid : String) (msgs : List Message) : List Message :=
  msgs.filter (fun m =>
    if m.role == "assistant" && idEq m.id aid then false
    else if userAdded && (m.role == "user" && idEq m.id uid) then false
    else true)

/-- The `handleSend` callback of the conversation component, as a function
of the pre-send state, the inputs, the two fresh ids and the network
outcome. The boolean result is whether the returned promise fulfills
(`true`) or rejects through the generic error handler (`false`). The
captured `currentMetadata` and `conversations` bindings are the pre-send
ones throughout the call (stale closure), so every `message_count` written
during rollback is computed from the pre-send count. -/
def handleSend (st : UIState) (messageText : String) (targetPersonaId : Option String)
    (uid aid : String) (outcome : Outcome) : UIState × Bool :=
  if jsTrim messageText = "" ∧ targetPersonaId = none then (st, true)
  else
    let userAdded := hasUserMessage messageText
    let msgs2 := optimisticMessages st.messages messageText uid aid
    let postCount := st.message_count + messageCountDelta messageText
    match outcome with
    | .abortBeforeFirstRead =>
      ({ messages := msgs2, message_count := postCount,
         error := some sendFailError, loading := false }, false)
    | .nonOk =>
      let rolled := rollbackFilter userAdded uid aid msgs2
      ({ messages := rolled, message_count := st.message_count,
         error := some sendFailError, loading := false }, false)
    | .abortMidStream chunks =>
      let s := processStream userAdded ⟨msgs2, ""⟩ chunks
      ({ messages := s.messages.filter (fun m => !idEq m.id aid),
         message_count := st.message_count - 1,
         error := none, loading := false }, true)
    | .okReconcileFail chunks =>
      let s := processStream userAdded ⟨msgs2, ""⟩ chunks
      ({ messages := s.messages, message_count := postCount,
         error := some sendFailError, loading := false }, false)
    | .ok chunks fetched =>
      let s := processStream userAdded ⟨msgs2, ""⟩ chunks
      let finalMessage := fetched.find? (fun m => idEq m.id aid)
      let msgs3 :=
        match finalMessage with
        | some fm =>
          updateLast (fun m =>
            if m.role == "assistant" && idEqId m.id fm.id then
              { m with usage := fm.usage }
            else m) s.messages
        | none => s.messages
      ({ messages := msgs3, message_count := postCount,
         error := none, loading := false }, true)

/-- The send path of the message-input component wired to the conversation's
`handleSend`: the input is trimmed, and the guard requires that no exchange
is in flight (`loading` false) and that the trimmed message or a selected
persona is present. The second boolean of the result is whether the promise
fulfills, the third whether a request was issued at all. -/
def coordinatorSend (st : UIState) (inputValue : String) (selectedPersona : Option String)
    (uid aid : String) (outcome : Outcome) : UIState × Bool × Bool :=
  let message := jsTrim inputValue
  if !st.loading && (!(message == "") || selectedPersona.isSome) then
    let r := handleSend st message selectedPersona uid aid outcome
    (r.1, r.2, true)
  else (st, true, false)

/-! Concrete inputs used by the claims below. -/

/-- A complete `content_block_delta` frame line carrying the text `t`. -/
def deltaLine (t : String) : String :=
  "data: \x7b\"type\":\"content_block_delta\",\"delta\":\x7b\"type\":\"text_delta\",\"text\":\""
    ++ t ++ "\"\x7d\x7d"

/-- A `message_start` frame line for the assistant role with server id X. -/
def msgStartLine : String :=
  "data: \x7b\"type\":\"message_start\",\"message\":\x7b\"role\":\"assistant\",\"id\":\"X\"\x7d\x7d"

/-- First half of a delta frame line cut mid-JSON at a chunk boundary. -/
def c1Chunk1 : String :=
  "data: \x7b\"type\":\"content_block_delta\",\"delta\":\x7b\"type\":\"text_delta\",\"te"

/-- Second half of that delta frame line, with the terminating newline. -/
def c1Chunk2 : String := "xt\":\"hi\"\x7d\x7d\n"

/-- A chunk holding one complete delta frame for the text `a`. -/
def aDeltaChunk : String := deltaLine "a" ++ "\n"

/-- A message of a prior exchange, present before the send under test. -/
def priorMessage : Message :=
  ⟨some (.str "p1"), "assistant", [⟨"text", "old", some "markdown"⟩], none⟩

/-- A pre-send state: one prior message, `message_count` 5, no error, idle. -/
def preState : UIState := ⟨[priorMessage], 5, none, false⟩

/-- The five-frame chunk sequence of the C7 scenario, one frame per chunk. -/
def c7Chunks : List String :=
  [msgStartLine ++ "\n", deltaLine "a" ++ "\n", deltaLine "b" ++ "\n",
   deltaLine "c" ++ "\n", "data: [DONE]\n"]

/-- A chunk interleaving valid deltas with malformed and foreign frames: a
delta `a`, a truncated JSON payload, a line without the framing marker, a
non-JSON payload, an unknown event type, a non-text delta, then a delta
`b`. -/
def c8Chunk : String :=
  deltaLine "a" ++ "\n"
    ++ "data: \x7b\"type\":\n"
    ++ "event: ping\n"
    ++ "data: [PING]\n"
    ++ "data: \x7b\"type\":\"ping\"\x7d\n"
    ++ "data: \x7b\"type\":\"content_block_delta\",\"delta\":\x7b\"type\":\"input_json_delta\",\"partial_json\":\"x\"\x7d\x7d\n"
    ++ deltaLine "b" ++ "\n"

/-! Helper lemmas. -/

/-- Updating the last element of a list with an explicit last element. -/
theorem updateLast_append_singleton (f : Message → Message) :
    ∀ (ms : List Message) (m : Message), updateLast f (ms ++ [m]) = ms ++ [f m]
  | [], _ => rfl
  | [_], _ => rfl
  | a :: b :: bs, m => by
    show a :: updateLast f (b :: (bs ++ [m])) = a :: (b :: (bs ++ [f m]))
    rw [show b :: (bs ++ [m]) = (b :: bs) ++ [m] from rfl,
      updateLast_append_singleton f (b :: bs) m]
    rfl

/-- The rollback filter keeps every message whose id is neither of the two
fresh ids of this exchange. -/
theorem rollbackFilter_keeps_fresh (u : Bool) (uid aid : String) (msgs : List Message)
    (hfresh : ∀ m ∈ msgs, idEq m.id uid = false ∧ idEq m.id aid = false) :
    rollbackFilter u uid aid msgs = msgs := by
  unfold rollbackFilter
  refine List.filter_eq_self.mpr ?_
  intro m hm
  simp [(hfresh m hm).1, (hfresh m hm).2]

/-- The rollback filter distributes over append. -/
theorem rollbackFilter_append (u : Bool) (uid aid : String) (xs ys : List Message) :
    rollbackFilter u uid aid (xs ++ ys)
      = rollbackFilter u uid aid xs ++ rollbackFilter u uid aid ys :=
  List.filter_append _ _

/-- The rollback filter drops the assistant placeholder of this exchange. -/
theorem rollbackFilter_drops_assistant (u : Bool) (uid aid : String) :
    rollbackFilter u uid aid [mkAssistantPlaceholder aid] = [] := by
  simp [rollbackFilter, mkAssistantPlaceholder, idEq]

/-- When a user message object was created, the rollback filter drops the
user message of this exchange. -/
theorem rollbackFilter_drops_user (messageText uid aid : String) :
    rollbackFilter true uid aid [mkUserMessage messageText uid] = [] := by
  simp [rollbackFilter, mkUserMessage, idEq]

/-- The non-2xx rollback restores exactly the pre-send message list when the
fresh ids occur nowhere among the prior messages. -/
theorem optimistic_rollback_eq (msgs : List Message) (messageText uid aid : String)
    (hfresh : ∀ m ∈ msgs, idEq m.id uid = false ∧ idEq m.id aid = false) :
    rollbackFilter (hasUserMessage messageText) uid aid
      (optimisticMessages msgs messageText uid aid) = msgs := by
  unfold optimisticMessages
  cases hu : hasUserMessage messageText with
  | true =>
    rw [if_pos rfl, rollbackFilter_append, rollbackFilter_append,
      rollbackFilter_keeps_fresh true uid aid msgs hfresh,
      rollbackFilter_drops_user messageText uid aid,
      rollbackFilter_drops_assistant true uid aid]
    simp
  | false =>
    rw [if_neg (by simp), rollbackFilter_append,
      rollbackFilter_keeps_fresh false uid aid msgs hfresh,
      rollbackFilter_drops_assistant false uid aid]
    simp

/-! The claims. -/

/-- C1: the decoder is claimed to carry a trailing partial line across chunk
boundaries so that a line split across two chunks still decodes as one
frame. The per-chunk decoder of the source drops the split frame: the same
delta line, cut mid-JSON into two chunks, leaves the accumulator empty,
while delivered in one chunk (or fed through the carryover decoder the spec
mandates) it accumulates the delta text. -/
theorem c1_split_line_dropped_by_per_chunk_decoder :
    (processStream true ⟨[mkAssistantPlaceholder "a1"], ""⟩ [c1Chunk1, c1Chunk2]).responseText = ""
    ∧ (processStream true ⟨[mkAssistantPlaceholder "a1"], ""⟩
        [c1Chunk1 ++ c1Chunk2]).responseText = "hi"
    ∧ (processStreamCarry true ⟨[mkAssistantPlaceholder "a1"], ""⟩
        [c1Chunk1, c1Chunk2]).1.responseText = "hi" :=
  ⟨rfl, rfl, rfl⟩

/-- C2: after a mid-stream abort the code removes only the assistant
placeholder and resolves cleanly, but it sets `message_count` to the stale
pre-send count minus one (here 4) instead of the post-send count minus one
(here 6): the counter drops by two below the messages the store keeps. -/
theorem c2_abort_restores_stale_count :
    (handleSend preState "hi" none "u1" "a1" (.abortMidStream [aDeltaChunk])).1.messages
      = [priorMessage, mkUserMessage "hi" "u1"]
    ∧ (handleSend preState "hi" none "u1" "a1" (.abortMidStream [aDeltaChunk])).1.message_count = 4
    ∧ preState.message_count + messageCountDelta "hi" - 1 = 6
    ∧ (handleSend preState "hi" none "u1" "a1" (.abortMidStream [aDeltaChunk])).1.error = none
    ∧ (handleSend preState "hi" none "u1" "a1" (.abortMidStream [aDeltaChunk])).2 = true :=
  ⟨rfl, rfl, rfl, rfl, rfl⟩

/-- C4 counterexample: a delta frame arriving in a chunk after the chunk
holding `[DONE]` is still processed — the read loop does not terminate, and
the later frame mutates both the accumulator and the assistant message. -/
theorem c4_later_chunk_processed_after_done :
    (processStream true ⟨[mkAssistantPlaceholder "a1"], ""⟩
        ["data: [DONE]\n", aDeltaChunk]).responseText = "a"
    ∧ (processStream true ⟨[mkAssistantPlaceholder "a1"], ""⟩
        ["data: [DONE]\n", aDeltaChunk]).messages
      = [{ id := some (.str "a1"), role := "assistant",
           content := [⟨"text", "a", some "markdown"⟩], usage := none }] :=
  ⟨rfl, rfl⟩

/-- C4 amended: decoding a `[DONE]` frame stops the processing of the
remaining lines of the same chunk, but it only breaks the per-chunk line
loop: the read loop goes on, and frames in later chunks are still
processed. -/
theorem c4_done_breaks_only_line_loop (u : Bool) (st : StreamState)
    (rest : List (List Char)) :
    processLines u st ("data: [DONE]".data :: rest) = st
    ∧ (processStream true ⟨[mkAssistantPlaceholder "a1"], ""⟩
        ["data: [DONE]\ndata: ignored-in-same-chunk\n", aDeltaChunk]).responseText = "a" :=
  ⟨rfl, rfl⟩

/-- C9: calling send while an exchange is in flight (the `loading` flag is
set) performs no state mutation at all and issues no request, whatever the
input, persona selection and network outcome would have been. -/
theorem c9_loading_guard_no_op (st : UIState) (inputValue : String)
    (selectedPersona : Option String) (uid aid : String) (outcome : Outcome)
    (h : st.loading = true) :
    coordinatorSend st inputValue selectedPersona uid aid outcome = (st, true, false) := by
  unfold coordinatorSend
  simp [h]

/-- C9 witness: the guard at a concrete in-flight state. -/
theorem c9_loading_guard_no_op_witness :
    coordinatorSend ⟨[priorMessage], 5, none, true⟩ "hello" none "u1" "a1" .nonOk
      = (⟨[priorMessage], 5, none, true⟩, true, false) :=
  c9_loading_guard_no_op ⟨[priorMessage], 5, none, true⟩ "hello" none "u1" "a1" .nonOk rfl

/-- C3 counterexample: when the reconciliation fetch fails, the send does
not resolve successfully and silently — the failure reaches the generic
error handler, which sets the user-visible error banner, and the send
rejects. -/
theorem c3_reconcile_failure_not_silent :
    (handleSend preState "hello" none "u1" "a1" (.okReconcileFail [aDeltaChunk])).1.error
      = some sendFailError
    ∧ (handleSend preState "hello" none "u1" "a1" (.okReconcileFail [aDeltaChunk])).2 = false :=
  ⟨rfl, rfl⟩

/-- C3 amended: a reconciliation-fetch failure does not roll the committed
exchange back — the message list is exactly what the stream left and
`message_count` keeps its post-send value — but the failure is not absorbed:
it falls through to the generic error handler, which sets a user-visible
error, and the send resolves as failed. -/
theorem c3_reconcile_failure_no_rollback (st : UIState) (messageText : String)
    (targetPersonaId : Option String) (uid aid : String) (chunks : List String)
    (hacc : ¬(jsTrim messageText = "" ∧ targetPersonaId = none)) :
    handleSend st messageText targetPersonaId uid aid (.okReconcileFail chunks)
      = ({ messages := (processStream (hasUserMessage messageText)
             ⟨optimisticMessages st.messages messageText uid aid, ""⟩ chunks).messages,
           message_count := st.message_count + messageCountDelta messageText,
           error := some sendFailError, loading := false }, false) := by
  unfold handleSend
  rw [if_neg hacc]

/-- C3 witness: the amended behaviour at a concrete failing reconciliation. -/
theorem c3_reconcile_failure_no_rollback_witness :
    handleSend preState "hello" none "u1" "a1" (.okReconcileFail [aDeltaChunk])
      = ({ messages := (processStream (hasUserMessage "hello")
             ⟨optimisticMessages preState.messages "hello" "u1" "a1", ""⟩ [aDeltaChunk]).messages,
           message_count := preState.message_count + messageCountDelta "hello",
           error := some sendFailError, loading := false }, false) :=
  c3_reconcile_failure_no_rollback preState "hello" none "u1" "a1" [aDeltaChunk] (by decide)

/-- C5: a non-2xx response removes exactly the messages appended by this
exchange (matched by their fresh ids), restores `message_count` to its
exact pre-send value, surfaces the user-visible error and resolves as
failed; every message present before the send is unchanged and still
present. -/
theorem c5_non2xx_full_rollback (st : UIState) (messageText : String)
    (targetPersonaId : Option String) (uid aid : String)
    (hacc : ¬(jsTrim messageText = "" ∧ targetPersonaId = none))
    (hfresh : ∀ m ∈ st.messages, idEq m.id uid = false ∧ idEq m.id aid = false) :
    handleSend st messageText targetPersonaId uid aid .nonOk
      = ({ messages := st.messages, message_count := st.message_count,
           error := some sendFailError, loading := false }, false) := by
  unfold handleSend
  rw [if_neg hacc]
  show (({ messages := rollbackFilter (hasUserMessage messageText) uid aid
             (optimisticMessages st.messages messageText uid aid),
           message_count := st.message_count,
           error := some sendFailError, loading := false } : UIState), false)
      = (({ messages := st.messages, message_count := st.message_count,
            error := some sendFailError, loading := false } : UIState), false)
  rw [optimistic_rollback_eq st.messages messageText uid aid hfresh]

/-- C5 witness: the full rollback at a concrete non-2xx response. -/
theorem c5_non2xx_full_rollback_witness :
    handleSend preState "hello" none "u1" "a1" .nonOk
      = ({ messages := preState.messages, message_count := preState.message_count,
           error := some sendFailError, loading := false }, false) :=
  c5_non2xx_full_rollback preState "hello" none "u1" "a1" (by decide) (by decide)

/-- C10: when the cancellation token fires while the POST itself is pending
(before the first stream read), the abort error is not handled by the
distinguished cancellation path: the generic handler sets a user-visible
error, neither the optimistically appended user message nor the assistant
placeholder is removed, `message_count` keeps its post-send value, and the
send rejects. -/
theorem c10_abort_before_first_read_generic (st : UIState) (messageText : String)
    (targetPersonaId : Option String) (uid aid : String)
    (hacc : ¬(jsTrim messageText = "" ∧ targetPersonaId = none)) :
    handleSend st messageText targetPersonaId uid aid .abortBeforeFirstRead
      = ({ messages := optimisticMessages st.messages messageText uid aid,
           message_count := st.message_count + messageCountDelta messageText,
           error := some sendFailError, loading := false }, false) := by
  unfold handleSend
  rw [if_neg hacc]

/-- C10 witness: the early abort at a concrete send. -/
theorem c10_abort_before_first_read_generic_witness :
    handleSend preState "hello" none "u1" "a1" .abortBeforeFirstRead
      = ({ messages := optimisticMessages preState.messages "hello" "u1" "a1",
           message_count := preState.message_count + messageCountDelta "hello",
           error := some sendFailError, loading := false }, false) :=
  c10_abort_before_first_read_generic preState "hello" none "u1" "a1" (by decide)

/-- C6: on an accepted send the optimistic update appends a user message
(role `user`, one text block) exactly when the trimmed text is non-empty,
always appends the assistant placeholder (role `assistant`, empty text
content) immediately after, and `message_count` grows by exactly the number
of messages appended: two when the trimmed text is non-empty, one when it
is empty and only a persona target is set. -/
theorem c6_optimistic_append_and_count (prev : List Message) (messageText uid aid : String)
    (targetPersonaId : Option String)
    (hacc : ¬(jsTrim messageText = "" ∧ targetPersonaId = none)) :
    ((mkUserMessage messageText uid).role = "user"
      ∧ (mkUserMessage messageText uid).content = [⟨"text", messageText, none⟩])
    ∧ ((mkAssistantPlaceholder aid).role = "assistant"
      ∧ (mkAssistantPlaceholder aid).content = [⟨"text", "", some "markdown"⟩])
    ∧ (jsTrim messageText ≠ "" →
        optimisticMessages prev messageText uid aid
          = prev ++ [mkUserMessage messageText uid, mkAssistantPlaceholder aid]
        ∧ messageCountDelta messageText = 2)
    ∧ (jsTrim messageText = "" →
        optimisticMessages prev messageText uid aid = prev ++ [mkAssistantPlaceholder aid]
        ∧ messageCountDelta messageText = 1) := by
  refine ⟨⟨rfl, rfl⟩, ⟨rfl, rfl⟩, ?_, ?_⟩
  · intro h
    have hu : hasUserMessage messageText = true := by
      simp [hasUserMessage, h]
    refine ⟨?_, ?_⟩
    · simp [optimisticMessages, hu]
    · simp [messageCountDelta, hu]
  · intro h
    have hu : hasUserMessage messageText = false := by
      simp [hasUserMessage, h]
    refine ⟨?_, ?_⟩
    · simp [optimisticMessages, hu]
    · simp [messageCountDelta, hu]

/-- C6 witness: the optimistic update at the concrete send of the text
`hello`. -/
theorem c6_optimistic_append_and_count_witness :
    ((mkUserMessage "hello" "u1").role = "user"
      ∧ (mkUserMessage "hello" "u1").content = [⟨"text", "hello", none⟩])
    ∧ ((mkAssistantPlaceholder "a1").role = "assistant"
      ∧ (mkAssistantPlaceholder "a1").content = [⟨"text", "", some "markdown"⟩])
    ∧ (jsTrim "hello" ≠ "" →
        optimisticMessages [priorMessage] "hello" "u1" "a1"
          = [priorMessage] ++ [mkUserMessage "hello" "u1", mkAssistantPlaceholder "a1"]
        ∧ messageCountDelta "hello" = 2)
    ∧ (jsTrim "hello" = "" →
        optimisticMessages [priorMessage] "hello" "u1" "a1"
          = [priorMessage] ++ [mkAssistantPlaceholder "a1"]
        ∧ messageCountDelta "hello" = 1) :=
  c6_optimistic_append_and_count [priorMessage] "hello" "u1" "a1" none (by decide)

/-- C7: the stream `message_start` (assistant, id X), deltas `a`, `b`, `c`,
`[DONE]` produces a final assistant message with id `X` and content text
`abc`; and every applied delta replaces the assistant message's content
wholesale with a single text block holding the full accumulated string,
never a partial fragment. -/
theorem c7_accumulation_and_wholesale_replacement :
    (processStream true ⟨[mkAssistantPlaceholder "a1"], ""⟩ c7Chunks).messages
      = [{ id := some (.str "X"), role := "assistant",
           content := [⟨"text", "abc", some "markdown"⟩], usage := none }]
    ∧ (processStream true ⟨[mkAssistantPlaceholder "a1"], ""⟩ c7Chunks).responseText = "abc"
    ∧ (∀ (st : StreamState) (t : String) (ms : List Message) (m : Message),
        st.messages = ms ++ [m] → m.role = "assistant" →
          (applyTextDelta st t).messages
            = ms ++ [{ m with content := [⟨"text", st.responseText ++ t, some "markdown"⟩] }]
          ∧ (applyTextDelta st t).responseText = st.responseText ++ t) := by
  refine ⟨rfl, rfl, ?_⟩
  intro st t ms m hms hrole
  refine ⟨?_, rfl⟩
  show updateLast _ st.messages = _
  rw [hms, updateLast_append_singleton]
  simp [hrole]

/-- C8: a line without the framing marker, a payload that does not look like
a JSON object, a payload that fails to parse, an unknown event type, and a
`content_block_delta` without a string text delta are each skipped as
no-ops without aborting the stream; valid deltas before and after such
frames still apply. -/
theorem c8_malformed_frames_are_no_ops :
    (∀ (u : Bool) (st : StreamState) (line : List Char) (rest : List (List Char)),
        isPrefixL "data: ".data line = false →
        processLines u st (line :: rest) = processLines u st rest)
    ∧ (∀ (u : Bool) (st : StreamState) (data : List Char),
        isPrefixL [lbraceC] (trimL data) = false → processData u st data = st)
    ∧ (∀ (u : Bool) (st : StreamState) (data : List Char),
        parseJson data = none → processData u st data = st)
    ∧ (∀ (u : Bool) (st : StreamState) (ev : Json),
        eventType ev = none → processEvent u st ev = st)
    ∧ (∀ (u : Bool) (st : StreamState) (ev : Json) (s : String),
        eventType ev = some s → s ≠ "message_start" → s ≠ "content_block_delta" →
        processEvent u st ev = st)
    ∧ (∀ (st : StreamState) (ev : Json),
        deltaTextOfEvent ev = none → content_block_delta_step st ev = st)
    ∧ (processStream true ⟨[mkAssistantPlaceholder "a1"], ""⟩ [c8Chunk]).responseText = "ab" := by
  refine ⟨?_, ?_, ?_, ?_, ?_, ?_, rfl⟩
  · intro u st line rest h
    simp [processLines, h]
  · intro u st data h
    simp [processData, h]
  · intro u st data h
    unfold processData
    rw [h]
    simp
  · intro u st ev h
    simp [processEvent, h]
  · intro u st ev s h h1 h2
    simp [processEvent, h, h1, h2]
  · intro st ev h
    simp [content_block_delta_step, h]

end Vivarium
